import Mathlib

/-!
Verification development for the appearance-embedding gsplat renderer
(src/internal/renderers/gsplat_appearance_embedding_renderer.py).

The Python module is shallowly embedded below.  Tensors become functions
over Fin N (per-point data) or lists of rows; float arithmetic is modelled
over ℚ where the code only adds, multiplies, clamps and divides, and over
ℝ where transcendental functions (sigmoid, sin/cos) appear.  External
primitives (projection, rasterization, spherical harmonics, the base
renderer) are opaque: the embedding records the exact arguments the module
hands to them, so properties of those argument values can be stated and
proved without implementing the primitives.
-/

set_option autoImplicit false

namespace GSplatAE

/-- Configuration of the appearance model, translated from the dataclass
ModelConfig.  n_appearances is an integer because the source uses -1 as the
sentinel for "not configured". -/
structure ModelConfig where
  n_gaussian_feature_dims : ℕ := 64
  n_appearances : ℤ := -1
  n_appearance_embedding_dims : ℕ := 32
  is_view_dependent : Bool := false
  n_view_direction_frequencies : ℕ := 4
  n_neurons : ℕ := 64
  n_layers : ℕ := 3
  skip_layers : List ℕ := []
  normalize : Bool := false

/-- Optimization schedule parameters, translated from the dataclass
OptimizationConfig. -/
structure OptimizationConfig where
  gamma_eps : ℚ := 1 / 1000000
  embedding_lr_init : ℚ := 2 / 1000
  embedding_lr_final_factor : ℚ := 1 / 10
  lr_init : ℚ := 1 / 1000
  lr_final_factor : ℚ := 1 / 10
  eps : ℚ := 1 / 10 ^ 15
  max_steps : ℕ := 30000
  warm_up : ℕ := 4000

/-- Result tuple of the external projection primitive
(xys, depths, radii, conics, comp, num_tiles_hit, cov3d), one entry per
point.  Only the fields the embedded code reads are kept with real content;
the rest are carried as opaque rationals. -/
structure ProjectionResults (N : ℕ) where
  xys : Fin N → ℚ × ℚ
  depths : Fin N → ℚ
  radii : Fin N → ℤ
  conics : Fin N → ℚ
  comp : Fin N → ℚ
  num_tiles_hit : Fin N → ℕ

/-- Arguments of one call to the external rasterization primitive
(rasterize_simplified): per-point colors with c channels, background color,
per-point opacities, and the anti_aliased flag. -/
structure RasterizeCall (N c : ℕ) where
  colors : Fin N → Fin c → ℚ
  bg : Fin c → ℚ
  opacities : Fin N → ℚ
  antiAliased : Bool

/-- The dictionary returned by forward: the three optional channel outputs
(recorded as the rasterization call that produces each image) plus the
pass-through bookkeeping fields. -/
structure RenderOutput (N : ℕ) where
  render : Option (RasterizeCall N 3)
  inverseDepth : Option (RasterizeCall N 1)
  hardInverseDepth : Option (RasterizeCall N 1)
  viewspacePoints : Fin N → ℚ × ℚ
  visibilityFilter : Fin N → Bool
  radii : Fin N → ℤ

/-- Value-level semantics of torch.Tensor.detach: the detached tensor has
the same value (gradient behaviour is outside the embedding). -/
def detach (x : ℚ) : ℚ := x

/-- torch.clamp(x, min=0., max=1.). -/
def clamp01 (x : ℚ) : ℚ := min (max x 0) 1

/-- The opacities actually used by all channels: the raw opacities,
multiplied by the projection compensation factor when anti-aliasing is
enabled (source line: opacities = opacities * comp[:, None]). -/
def aaOpacities {N : ℕ} (antiAliased : Bool) (proj : ProjectionResults N)
    (opacities : Fin N → ℚ) : Fin N → ℚ :=
  if antiAliased then fun i => opacities i * proj.comp i else opacities

/-- Colors handed to the rgb rasterization: a zero buffer over all points,
with clamp(base_rgb + rgb_offset, 0, 1) written into the visible subset
(radii > 0). -/
def rgbColors {N : ℕ} (proj : ProjectionResults N)
    (baseRgb rgbOffset : Fin N → Fin 3 → ℚ) : Fin N → Fin 3 → ℚ :=
  fun i j => if 0 < proj.radii i then clamp01 (baseRgb i j + rgbOffset i j) else 0

/-- Colors of the two inverse-depth channels:
1 / (depths.clamp_min(0) + 1e-8). -/
def inverseDepthColors {N : ℕ} (proj : ProjectionResults N) : Fin N → Fin 1 → ℚ :=
  fun i _ => 1 / (max (proj.depths i) 0 + 1 / 100000000)

/-- Shallow embedding of GSplatAppearanceEmbeddingRendererModule.forward.
The external computations feeding it (projection results, raw opacities,
the spherical-harmonics base color + 0.5, and the appearance model offset
rescaled by 2x - 1) are inputs; the output records, for each requested
channel, the exact rasterization call the source issues, plus the
bookkeeping fields of the returned dictionary. -/
def rendererForward {N : ℕ} (antiAliased : Bool) (proj : ProjectionResults N)
    (opacitiesIn : Fin N → ℚ) (baseRgb rgbOffset : Fin N → Fin 3 → ℚ)
    (bgColor : Fin 3 → ℚ) (renderTypes : Option (List String)) : RenderOutput N :=
  let rts := renderTypes.getD ["rgb"]
  let opacities := aaOpacities antiAliased proj opacitiesIn
  { render :=
      if "rgb" ∈ rts then
        some { colors := rgbColors proj baseRgb rgbOffset
               bg := bgColor
               opacities := opacities
               antiAliased := false }
      else none
    inverseDepth :=
      if "inverse_depth" ∈ rts then
        some { colors := inverseDepthColors proj
               bg := fun _ => 0
               opacities := opacities
               antiAliased := false }
      else none
    hardInverseDepth :=
      if "hard_inverse_depth" ∈ rts then
        some { colors := inverseDepthColors proj
               bg := fun _ => 0
               opacities := fun i => opacities i + (1 - detach (opacities i))
               antiAliased := false }
      else none
    viewspacePoints := proj.xys
    visibilityFilter := fun i => decide (0 < proj.radii i)
    radii := proj.radii }

/-- Arguments passed verbatim to the external base renderer
(self.renderer(viewpoint_camera, pc, bg_color, scaling_modifier, kwargs))
when training_forward bypasses appearance shading. -/
structure BaseRendererCall (N : ℕ) where
  proj : ProjectionResults N
  opacities : Fin N → ℚ
  bg : Fin 3 → ℚ
  renderTypes : Option (List String)

/-- Shallow embedding of training_forward: for step < warm_up the whole
render is delegated to the external base renderer (left), otherwise the
module's own forward runs (right). -/
def trainingForward {N : ℕ} (step : ℕ) (opt : OptimizationConfig)
    (antiAliased : Bool) (proj : ProjectionResults N) (opacities : Fin N → ℚ)
    (baseRgb rgbOffset : Fin N → Fin 3 → ℚ) (bgColor : Fin 3 → ℚ)
    (renderTypes : Option (List String)) : BaseRendererCall N ⊕ RenderOutput N :=
  if step < opt.warm_up then
    Sum.inl { proj := proj, opacities := opacities, bg := bgColor, renderTypes := renderTypes }
  else
    Sum.inr (rendererForward antiAliased proj opacities baseRgb rgbOffset bgColor renderTypes)

/-- One optimizer+scheduler pair produced by _create_optimizer_and_scheduler:
the Adam initial learning rate and the data of the LambdaLR lr_lambda
closure (lr_final_factor, max_steps, warm_up). -/
structure SchedulerSpec where
  lr_init : ℚ
  lr_final_factor : ℚ
  max_steps : ℕ
  warm_up : ℕ

/-- The exponent of the lr_lambda closure at scheduler step t:
min(max(t - warm_up, 0) / max_steps, 1), over exact rationals. -/
def schedulerExponent (s : SchedulerSpec) (t : ℕ) : ℚ :=
  min (max ((t : ℚ) - (s.warm_up : ℚ)) 0 / (s.max_steps : ℚ)) 1

/-- The learning-rate multiplier returned by the lr_lambda closure at step
t: lr_final_factor ** min(max(t - warm_up, 0) / max_steps, 1). -/
noncomputable def SchedulerSpec.multiplier (s : SchedulerSpec) (t : ℕ) : ℝ :=
  (s.lr_final_factor : ℝ) ^ ((schedulerExponent s t : ℚ) : ℝ)

/-- Shallow embedding of training_setup: it builds the embedding-table pair
from embedding_lr_init and the network pair from lr_init, both sharing
lr_final_factor, max_steps and warm_up (note the source passes
lr_final_factor, not embedding_lr_final_factor, to both). -/
def trainingSetup (cfg : OptimizationConfig) : SchedulerSpec × SchedulerSpec :=
  ({ lr_init := cfg.embedding_lr_init
     lr_final_factor := cfg.lr_final_factor
     max_steps := cfg.max_steps
     warm_up := cfg.warm_up },
   { lr_init := cfg.lr_init
     lr_final_factor := cfg.lr_final_factor
     max_steps := cfg.max_steps
     warm_up := cfg.warm_up })

/-- The shape of the state built by Model._setup: an nn.Embedding with
n_appearances rows of n_appearance_embedding_dims entries (plus the offset
network, whose construction is modelled separately). -/
structure ModelState where
  embeddingRows : ℕ
  embeddingDims : ℕ

/-- Model._setup sizes the embedding table from the configuration. -/
def mkModel (cfg : ModelConfig) : ModelState :=
  { embeddingRows := cfg.n_appearances.toNat
    embeddingDims := cfg.n_appearance_embedding_dims }

/-- Mutable state of GSplatAppearanceEmbeddingRendererModule that setup and
load_state_dict touch: the stored model config and the optional built
model. -/
structure RendererModuleState where
  modelConfig : ModelConfig
  model : Option ModelState

/-- The appearance-id inference loop of setup: max_input_id starts at 0 and
is raised to every observed appearance-group id larger than it (ids are the
first components of the appearance_group_ids values; none when the mapping
is absent). -/
def maxInputId (appearanceGroupIds : Option (List ℕ)) : ℕ :=
  (appearanceGroupIds.getD []).foldl (fun m i => if i > m then i else m) 0

/-- Shallow embedding of GSplatAppearanceEmbeddingRendererModule.setup:
when invoked with a lightning module, a non-positive configured
n_appearances is replaced by max_input_id + 1 and the model is (re)built;
without a lightning module nothing happens. -/
def moduleSetup (st : RendererModuleState) (hasLightningModule : Bool)
    (appearanceGroupIds : Option (List ℕ)) : RendererModuleState :=
  if hasLightningModule then
    let cfg :=
      if st.modelConfig.n_appearances ≤ 0 then
        { st.modelConfig with n_appearances := (maxInputId appearanceGroupIds : ℤ) + 1 }
      else st.modelConfig
    { modelConfig := cfg, model := some (mkModel cfg) }
  else st

/-- Shallow embedding of load_state_dict: the configured n_appearances is
overwritten with the row count of the persisted embedding weight
(state_dict["model.embedding.weight"].shape[0]) and the model is rebuilt
with that count before delegating to the framework load. -/
def loadStateDict (st : RendererModuleState) (checkpointEmbeddingRows : ℕ) :
    RendererModuleState :=
  let cfg := { st.modelConfig with n_appearances := (checkpointEmbeddingRows : ℤ) }
  { modelConfig := cfg, model := some (mkModel cfg) }

/-- torch.relu. -/
def relu (x : ℝ) : ℝ := max x 0

/-- The sigmoid activation 1 / (1 + exp(-x)). -/
noncomputable def sigmoid (x : ℝ) : ℝ := 1 / (1 + Real.exp (-x))

/-- One fully-connected layer: each row pairs its weight vector with its
bias. -/
structure AffineLayer where
  rows : List (List ℝ × ℝ)

/-- Apply a fully-connected layer to an input vector. -/
noncomputable def AffineLayer.apply (l : AffineLayer) (x : List ℝ) : List ℝ :=
  l.rows.map (fun wb => wb.2 + (List.zipWith (fun a b => a * b) wb.1 x).sum)

/-- Modelled from the spec: the generic feed-forward network builder
(internal.utils.network_factory.NetworkFactory.get_network_with_skip_layers
is not part of the sources).  The hidden stack applies each layer followed
by the rectified-linear activation, concatenating the original input in
front of layers whose index is configured as a skip layer. -/
noncomputable def hiddenForward (skips : List ℕ) (input : List ℝ) :
    List AffineLayer → ℕ → List ℝ → List ℝ
  | [], _, x => x
  | l :: ls, idx, x =>
      hiddenForward skips input ls (idx + 1)
        ((l.apply (if idx ∈ skips then x ++ input else x)).map relu)

/-- Weights of the offset network: hidden layers, output layer and
configured skip-layer indices. -/
structure MLP where
  hidden : List AffineLayer
  output : AffineLayer
  skips : List ℕ

/-- Modelled from the spec: running the offset network maps the hidden
stack's result through the output layer and the sigmoid output activation
(the builder is called with activation ReLU and output_activation
Sigmoid). -/
noncomputable def MLP.run (net : MLP) (input : List ℝ) : List ℝ :=
  (net.output.apply (hiddenForward net.skips input net.hidden 0 input)).map sigmoid

/-- Modelled from the spec: the deterministic frequency encoding of a
direction vector (internal.encodings.positional_encoding.PositionalEncoding
is not part of the sources): sine and cosine of the input coordinates at
n_frequencies octave-spaced frequency bands. -/
noncomputable def positionalEncoding (nFrequencies : ℕ) (v : List ℝ) : List ℝ :=
  ((List.range nFrequencies).map (fun k =>
    v.map (fun x => Real.sin ((2 ^ k : ℝ) * x)) ++
    v.map (fun x => Real.cos ((2 ^ k : ℝ) * x)))).flatten

/-- torch.nn.functional.normalize along the last dimension: divide by the
L2 norm, floored at the eps of 1e-12. -/
noncomputable def l2normalize (v : List ℝ) : List ℝ :=
  v.map (fun x => x / max (Real.sqrt (v.map (fun y => y * y)).sum) (1 / 10 ^ 12))

/-- Shallow embedding of Model.forward: look up the embedding row of the
appearance id and replicate it across all points, optionally L2-normalize
features and embedding, concatenate per point (appending the encoded view
direction when view-dependent), and run the offset network row-wise. -/
noncomputable def modelForward (cfg : ModelConfig) (embedding : List (List ℝ))
    (net : MLP) (gaussianFeatures : List (List ℝ)) (appearance : ℕ)
    (viewDirs : List (List ℝ)) : List (List ℝ) :=
  let embRow := embedding.getD appearance []
  (List.range gaussianFeatures.length).map (fun i =>
    let f := gaussianFeatures.getD i []
    let fn := if cfg.normalize then l2normalize f else f
    let en := if cfg.normalize then l2normalize embRow else embRow
    net.run (fn ++ en ++
      (if cfg.is_view_dependent then
        positionalEncoding cfg.n_view_direction_frequencies (viewDirs.getD i [])
      else [])))

/-- The caller-side rescaling of the network output at the rgb channel of
forward: rgb_offset = model(...) * 2 - 1. -/
noncomputable def appearanceOffsets (cfg : ModelConfig) (embedding : List (List ℝ))
    (net : MLP) (gaussianFeatures : List (List ℝ)) (appearance : ℕ)
    (viewDirs : List (List ℝ)) : List (List ℝ) :=
  (modelForward cfg embedding net gaussianFeatures appearance viewDirs).map
    (fun row => row.map (fun y => y * 2 - 1))

/-- A concrete single-point projection result used to instantiate the
theorems below on closed inputs. -/
def exProj : ProjectionResults 1 :=
  { xys := fun _ => (0, 0)
    depths := fun _ => 2
    radii := fun _ => 1
    conics := fun _ => 0
    comp := fun _ => 1 / 2
    num_tiles_hit := fun _ => 1 }

/-- A concrete opacity vector. -/
def exOp : Fin 1 → ℚ := fun _ => 1 / 2

/-- A concrete base color. -/
def exBase : Fin 1 → Fin 3 → ℚ := fun _ _ => 1 / 2

/-- A concrete predicted offset. -/
def exOffset : Fin 1 → Fin 3 → ℚ := fun _ _ => 1 / 4

/-- A second concrete predicted offset (to instantiate independence from
the appearance model during warm-up). -/
def exOffset2 : Fin 1 → Fin 3 → ℚ := fun _ _ => 3 / 4

/-- A concrete background color. -/
def exBg : Fin 3 → ℚ := fun _ => 0

/-- The rgb rasterization call forward issues on the concrete inputs with
anti-aliasing enabled. -/
def exRgbCall : RasterizeCall 1 3 :=
  { colors := rgbColors exProj exBase exOffset
    bg := exBg
    opacities := aaOpacities true exProj exOp
    antiAliased := false }

/-- The inverse-depth rasterization call forward issues on the concrete
inputs with anti-aliasing enabled. -/
def exInvCall : RasterizeCall 1 1 :=
  { colors := inverseDepthColors exProj
    bg := fun _ => 0
    opacities := aaOpacities true exProj exOp
    antiAliased := false }

/-- The hard-inverse-depth rasterization call forward issues on the
concrete inputs with anti-aliasing enabled. -/
def exHardCall : RasterizeCall 1 1 :=
  { colors := inverseDepthColors exProj
    bg := fun _ => 0
    opacities := fun i => aaOpacities true exProj exOp i +
      (1 - detach (aaOpacities true exProj exOp i))
    antiAliased := false }

/-- A concrete module state whose n_appearances is still the -1 sentinel. -/
def exState : RendererModuleState :=
  { modelConfig := {}, model := none }

/-- A concrete three-output offset network (no hidden layers). -/
noncomputable def exNet : MLP :=
  { hidden := []
    output := { rows := [([1], 0), ([1], 0), ([1], 0)] }
    skips := [] }

/-- A concrete single-point feature batch of the default feature width. -/
noncomputable def exFeats : List (List ℝ) := [List.replicate 64 0]

lemma clamp01_nonneg (x : ℚ) : 0 ≤ clamp01 x :=
  le_min (le_max_right x 0) zero_le_one

lemma clamp01_le_one (x : ℚ) : clamp01 x ≤ 1 :=
  min_le_right _ _

lemma rgbColors_nonneg {N : ℕ} (proj : ProjectionResults N)
    (baseRgb rgbOffset : Fin N → Fin 3 → ℚ) (i : Fin N) (j : Fin 3) :
    0 ≤ rgbColors proj baseRgb rgbOffset i j := by
  unfold rgbColors
  split
  · exact clamp01_nonneg _
  · exact le_refl 0

lemma rgbColors_le_one {N : ℕ} (proj : ProjectionResults N)
    (baseRgb rgbOffset : Fin N → Fin 3 → ℚ) (i : Fin N) (j : Fin 3) :
    rgbColors proj baseRgb rgbOffset i j ≤ 1 := by
  unfold rgbColors
  split
  · exact clamp01_le_one _
  · exact zero_le_one

lemma rendererForward_render_eq {N : ℕ} (antiAliased : Bool)
    (proj : ProjectionResults N) (op : Fin N → ℚ)
    (baseRgb rgbOffset : Fin N → Fin 3 → ℚ) (bg : Fin 3 → ℚ)
    (rts : Option (List String)) {c : RasterizeCall N 3}
    (hc : (rendererForward antiAliased proj op baseRgb rgbOffset bg rts).render = some c) :
    c = { colors := rgbColors proj baseRgb rgbOffset
          bg := bg
          opacities := aaOpacities antiAliased proj op
          antiAliased := false } := by
  unfold rendererForward at hc
  dsimp only at hc
  split at hc
  · exact (Option.some_inj.mp hc).symm
  · exact absurd hc (by simp)

lemma rendererForward_inverseDepth_eq {N : ℕ} (antiAliased : Bool)
    (proj : ProjectionResults N) (op : Fin N → ℚ)
    (baseRgb rgbOffset : Fin N → Fin 3 → ℚ) (bg : Fin 3 → ℚ)
    (rts : Option (List String)) {c : RasterizeCall N 1}
    (hc : (rendererForward antiAliased proj op baseRgb rgbOffset bg rts).inverseDepth = some c) :
    c = { colors := inverseDepthColors proj
          bg := fun _ => 0
          opacities := aaOpacities antiAliased proj op
          antiAliased := false } := by
  unfold rendererForward at hc
  dsimp only at hc
  split at hc
  · exact (Option.some_inj.mp hc).symm
  · exact absurd hc (by simp)

lemma rendererForward_hardInverseDepth_eq {N : ℕ} (antiAliased : Bool)
    (proj : ProjectionResults N) (op : Fin N → ℚ)
    (baseRgb rgbOffset : Fin N → Fin 3 → ℚ) (bg : Fin 3 → ℚ)
    (rts : Option (List String)) {c : RasterizeCall N 1}
    (hc : (rendererForward antiAliased proj op baseRgb rgbOffset bg rts).hardInverseDepth = some c) :
    c = { colors := inverseDepthColors proj
          bg := fun _ => 0
          opacities := fun i => aaOpacities antiAliased proj op i +
            (1 - detach (aaOpacities antiAliased proj op i))
          antiAliased := false } := by
  unfold rendererForward at hc
  dsimp only at hc
  split at hc
  · exact (Option.some_inj.mp hc).symm
  · exact absurd hc (by simp)

/-- C10: calling forward with render_types = None behaves exactly as if
render_types were ["rgb"]: the rgb rasterization happens and the
inverse_depth and hard_inverse_depth entries of the returned bundle are
None. -/
theorem C10_none_render_types_defaults_to_rgb {N : ℕ} (antiAliased : Bool)
    (proj : ProjectionResults N) (op : Fin N → ℚ)
    (baseRgb rgbOffset : Fin N → Fin 3 → ℚ) (bg : Fin 3 → ℚ) :
    rendererForward antiAliased proj op baseRgb rgbOffset bg none =
      rendererForward antiAliased proj op baseRgb rgbOffset bg (some ["rgb"]) ∧
    (rendererForward antiAliased proj op baseRgb rgbOffset bg none).render.isSome = true ∧
    (rendererForward antiAliased proj op baseRgb rgbOffset bg none).inverseDepth = none ∧
    (rendererForward antiAliased proj op baseRgb rgbOffset bg none).hardInverseDepth = none := by
  refine ⟨rfl, ?_, ?_, ?_⟩ <;> simp [rendererForward]

/-- C9: entries of render_types outside the three recognized channel names
are silently ignored (prepending such a name changes nothing in the
output), and each of the three channel outputs is populated exactly when
its name appears in the requested list. -/
theorem C9_unrecognized_render_types_ignored {N : ℕ} (antiAliased : Bool)
    (proj : ProjectionResults N) (op : Fin N → ℚ)
    (baseRgb rgbOffset : Fin N → Fin 3 → ℚ) (bg : Fin 3 → ℚ) (rts : List String) :
    ((rendererForward antiAliased proj op baseRgb rgbOffset bg (some rts)).render.isSome
      ↔ "rgb" ∈ rts) ∧
    ((rendererForward antiAliased proj op baseRgb rgbOffset bg (some rts)).inverseDepth.isSome
      ↔ "inverse_depth" ∈ rts) ∧
    ((rendererForward antiAliased proj op baseRgb rgbOffset bg (some rts)).hardInverseDepth.isSome
      ↔ "hard_inverse_depth" ∈ rts) ∧
    (∀ s : String, s ≠ "rgb" → s ≠ "inverse_depth" → s ≠ "hard_inverse_depth" →
      rendererForward antiAliased proj op baseRgb rgbOffset bg (some (s :: rts)) =
        rendererForward antiAliased proj op baseRgb rgbOffset bg (some rts)) := by
  refine ⟨?_, ?_, ?_, ?_⟩
  · by_cases h : "rgb" ∈ rts <;> simp [rendererForward, h]
  · by_cases h : "inverse_depth" ∈ rts <;> simp [rendererForward, h]
  · by_cases h : "hard_inverse_depth" ∈ rts <;> simp [rendererForward, h]
  · intro s h1 h2 h3
    simp [rendererForward, List.mem_cons, Ne.symm h1, Ne.symm h2, Ne.symm h3]

/-- C2: every color vector handed to the rgb rasterization call lies
componentwise in [0,1]; invisible points (screen radius ≤ 0) keep the zero
color of the initial buffer, and visible points carry exactly
clamp(base_rgb + rgb_offset, 0, 1), so an unclamped sum never reaches the
rasterizer. -/
theorem C2_rgb_colors_clamped {N : ℕ} (antiAliased : Bool)
    (proj : ProjectionResults N) (op : Fin N → ℚ)
    (baseRgb rgbOffset : Fin N → Fin 3 → ℚ) (bg : Fin 3 → ℚ)
    (rts : Option (List String)) :
    ∀ c ∈ (rendererForward antiAliased proj op baseRgb rgbOffset bg rts).render,
      (∀ (i : Fin N) (j : Fin 3), 0 ≤ c.colors i j ∧ c.colors i j ≤ 1) ∧
      (∀ (i : Fin N) (j : Fin 3), ¬ 0 < proj.radii i → c.colors i j = 0) ∧
      (∀ (i : Fin N) (j : Fin 3), 0 < proj.radii i →
        c.colors i j = clamp01 (baseRgb i j + rgbOffset i j)) := by
  intro c hc
  rw [Option.mem_def] at hc
  have hcol := rendererForward_render_eq antiAliased proj op baseRgb rgbOffset bg rts hc
  subst hcol
  refine ⟨fun i j => ⟨rgbColors_nonneg _ _ _ i j, rgbColors_le_one _ _ _ i j⟩, ?_, ?_⟩
  · intro i j hi
    simp [rgbColors, hi]
  · intro i j hi
    simp [rgbColors, hi]

/-- C5: with anti-aliasing enabled, forward folds the compensation factor
into the opacities exactly once before any channel is shaded (the rgb and
inverse-depth calls receive opacities * comp, the hard channel builds its
forced opacities on top of that same product), and every rasterization
call passes anti_aliased = false. -/
theorem C5_anti_aliasing_applied_once {N : ℕ} (proj : ProjectionResults N)
    (op : Fin N → ℚ) (baseRgb rgbOffset : Fin N → Fin 3 → ℚ) (bg : Fin 3 → ℚ)
    (rts : Option (List String)) :
    (∀ c ∈ (rendererForward true proj op baseRgb rgbOffset bg rts).render,
      c.antiAliased = false ∧ c.opacities = fun i => op i * proj.comp i) ∧
    (∀ c ∈ (rendererForward true proj op baseRgb rgbOffset bg rts).inverseDepth,
      c.antiAliased = false ∧ c.opacities = fun i => op i * proj.comp i) ∧
    (∀ c ∈ (rendererForward true proj op baseRgb rgbOffset bg rts).hardInverseDepth,
      c.antiAliased = false ∧ c.opacities = fun i =>
        op i * proj.comp i + (1 - detach (op i * proj.comp i))) := by
  refine ⟨?_, ?_, ?_⟩ <;> intro c hc <;> rw [Option.mem_def] at hc
  · have h := rendererForward_render_eq true proj op baseRgb rgbOffset bg rts hc
    subst h
    exact ⟨rfl, rfl⟩
  · have h := rendererForward_inverseDepth_eq true proj op baseRgb rgbOffset bg rts hc
    subst h
    exact ⟨rfl, rfl⟩
  · have h := rendererForward_hardInverseDepth_eq true proj op baseRgb rgbOffset bg rts hc
    subst h
    exact ⟨rfl, rfl⟩

/-- C6: the hard_inverse_depth rasterization receives opacities
op + (1 - detach(op)), whose value is 1 at every point; its colors are
identical to the inverse_depth channel's, and the whole call equals the
inverse-depth call with all opacities replaced by 1, so any rasterizer
produces the same image for both. -/
theorem C6_hard_inverse_depth_is_opacity_one {N : ℕ} (antiAliased : Bool)
    (proj : ProjectionResults N) (op : Fin N → ℚ)
    (baseRgb rgbOffset : Fin N → Fin 3 → ℚ) (bg : Fin 3 → ℚ) (rts : List String)
    (h1 : "inverse_depth" ∈ rts) (h2 : "hard_inverse_depth" ∈ rts) :
    (rendererForward antiAliased proj op baseRgb rgbOffset bg (some rts)).inverseDepth.isSome
      = true ∧
    (rendererForward antiAliased proj op baseRgb rgbOffset bg (some rts)).hardInverseDepth.isSome
      = true ∧
    ∀ ic ∈ (rendererForward antiAliased proj op baseRgb rgbOffset bg (some rts)).inverseDepth,
    ∀ hc ∈ (rendererForward antiAliased proj op baseRgb rgbOffset bg (some rts)).hardInverseDepth,
      (∀ i, hc.opacities i = 1) ∧
      hc.colors = ic.colors ∧
      hc = { ic with opacities := fun _ => 1 } := by
  have hop : (fun i => aaOpacities antiAliased proj op i +
      (1 - detach (aaOpacities antiAliased proj op i))) = fun _ : Fin N => (1 : ℚ) := by
    funext i
    unfold detach
    ring
  refine ⟨?_, ?_, ?_⟩
  · simp [rendererForward, h1]
  · simp [rendererForward, h2]
  · intro ic hic hc hhc
    rw [Option.mem_def] at hic hhc
    have hic2 := rendererForward_inverseDepth_eq antiAliased proj op baseRgb rgbOffset bg
      (some rts) hic
    have hhc2 := rendererForward_hardInverseDepth_eq antiAliased proj op baseRgb rgbOffset bg
      (some rts) hhc
    subst hic2
    subst hhc2
    exact ⟨fun i => congrFun hop i, rfl, by simp only [hop]⟩

/-- C1: training_forward delegates the whole render to the external base
renderer for steps below warm_up (its result then does not depend on the
appearance model output at all), and for steps at or above warm_up it
always renders through the module's own appearance-conditioned forward. -/
theorem C1_warm_up_dispatch {N : ℕ} (step : ℕ) (opt : OptimizationConfig)
    (antiAliased : Bool) (proj : ProjectionResults N) (op : Fin N → ℚ)
    (baseRgb rgbOffset rgbOffset2 : Fin N → Fin 3 → ℚ) (bg : Fin 3 → ℚ)
    (rts : Option (List String)) :
    (step < opt.warm_up →
      trainingForward step opt antiAliased proj op baseRgb rgbOffset bg rts =
        Sum.inl { proj := proj, opacities := op, bg := bg, renderTypes := rts } ∧
      trainingForward step opt antiAliased proj op baseRgb rgbOffset bg rts =
        trainingForward step opt antiAliased proj op baseRgb rgbOffset2 bg rts) ∧
    (opt.warm_up ≤ step →
      trainingForward step opt antiAliased proj op baseRgb rgbOffset bg rts =
        Sum.inr (rendererForward antiAliased proj op baseRgb rgbOffset bg rts)) := by
  constructor
  · intro h
    unfold trainingForward
    rw [if_pos h, if_pos h]
    exact ⟨rfl, rfl⟩
  · intro h
    unfold trainingForward
    rw [if_neg (not_lt.mpr h)]

lemma maxInputId_eq_foldl_max (g : Option (List ℕ)) :
    maxInputId g = (g.getD []).foldl max 0 := by
  unfold maxInputId
  have h : (fun (m i : ℕ) => if i > m then i else m) = max := by
    funext m i
    rcases lt_or_ge m i with h | h
    · rw [if_pos h]
      exact (max_eq_right h.le).symm
    · rw [if_neg (not_lt.mpr h)]
      exact (max_eq_left h).symm
  rw [h]

lemma moduleSetup_cfg_of_pos (st : RendererModuleState) (g : Option (List ℕ))
    (h : ¬ st.modelConfig.n_appearances ≤ 0) :
    (moduleSetup st true g).modelConfig = st.modelConfig := by
  unfold moduleSetup
  rw [if_neg h]
  rfl

lemma moduleSetup_cfg_of_nonpos (st : RendererModuleState) (g : Option (List ℕ))
    (h : st.modelConfig.n_appearances ≤ 0) :
    (moduleSetup st true g).modelConfig =
      { st.modelConfig with n_appearances := (maxInputId g : ℤ) + 1 } := by
  unfold moduleSetup
  rw [if_pos h]
  rfl

lemma moduleSetup_model_of_nonpos (st : RendererModuleState) (g : Option (List ℕ))
    (h : st.modelConfig.n_appearances ≤ 0) :
    (moduleSetup st true g).model = some (mkModel
      { st.modelConfig with n_appearances := (maxInputId g : ℤ) + 1 }) := by
  unfold moduleSetup
  rw [if_pos h]
  rfl

/-- C7: when setup runs with a lightning module and n_appearances is not
configured (≤ 0), it is set to the maximum observed appearance-group id
plus one (at least 1 even with no groups), the embedding table is built
with exactly that many rows, and the value is frozen: a later setup call
leaves it unchanged because the stored value is now positive. -/
theorem C7_n_appearances_inferred_once (st : RendererModuleState)
    (g : Option (List ℕ)) (happ : st.modelConfig.n_appearances ≤ 0) :
    (moduleSetup st true g).modelConfig.n_appearances = (maxInputId g : ℤ) + 1 ∧
    maxInputId g = (g.getD []).foldl max 0 ∧
    1 ≤ (moduleSetup st true g).modelConfig.n_appearances ∧
    (moduleSetup st true g).model = some
      { embeddingRows := maxInputId g + 1
        embeddingDims := st.modelConfig.n_appearance_embedding_dims } ∧
    (∀ g2, (moduleSetup (moduleSetup st true g) true g2).modelConfig.n_appearances =
      (maxInputId g : ℤ) + 1) := by
  have hcfg := moduleSetup_cfg_of_nonpos st g happ
  have h1 : (moduleSetup st true g).modelConfig.n_appearances = (maxInputId g : ℤ) + 1 := by
    rw [hcfg]
  refine ⟨h1, maxInputId_eq_foldl_max g, ?_, ?_, ?_⟩
  · rw [h1]
    omega
  · rw [moduleSetup_model_of_nonpos st g happ]
    have h2 : ((maxInputId g : ℤ) + 1).toNat = maxInputId g + 1 := by omega
    unfold mkModel
    dsimp only
    rw [h2]
  · intro g2
    have hpos : ¬ (moduleSetup st true g).modelConfig.n_appearances ≤ 0 := by
      rw [h1]
      omega
    rw [moduleSetup_cfg_of_pos (moduleSetup st true g) g2 hpos]
    exact h1

/-- C8: load_state_dict always overwrites the configured n_appearances with
the persisted embedding table's row count and rebuilds the model with that
count, so after loading the embedding table's size matches the checkpoint
regardless of the prior configuration. -/
theorem C8_load_state_dict_resizes (st : RendererModuleState) (rows : ℕ) :
    (loadStateDict st rows).modelConfig.n_appearances = (rows : ℤ) ∧
    (loadStateDict st rows).model = some
      { embeddingRows := rows
        embeddingDims := st.modelConfig.n_appearance_embedding_dims } := by
  refine ⟨rfl, ?_⟩
  have h2 : ((rows : ℤ)).toNat = rows := by omega
  unfold loadStateDict mkModel
  dsimp only
  rw [h2]

lemma schedulerExponent_of_le (s : SchedulerSpec) (t : ℕ) (h : t ≤ s.warm_up) :
    schedulerExponent s t = 0 := by
  unfold schedulerExponent
  have h1 : (t : ℚ) - (s.warm_up : ℚ) ≤ 0 := by
    rw [sub_nonpos]
    exact_mod_cast h
  rw [max_eq_right h1, zero_div]
  exact min_eq_left zero_le_one

lemma schedulerExponent_of_ge (s : SchedulerSpec) (t : ℕ) (hms : 0 < s.max_steps)
    (h : s.warm_up + s.max_steps ≤ t) : schedulerExponent s t = 1 := by
  unfold schedulerExponent
  have hms2 : (0 : ℚ) < (s.max_steps : ℚ) := by exact_mod_cast hms
  have h1 : (s.max_steps : ℚ) ≤ (t : ℚ) - (s.warm_up : ℚ) := by
    have h2 : (s.warm_up : ℚ) + (s.max_steps : ℚ) ≤ (t : ℚ) := by exact_mod_cast h
    linarith
  rw [max_eq_left (le_trans hms2.le h1)]
  refine min_eq_right ?_
  rw [le_div_iff₀ hms2]
  linarith

lemma schedulerExponent_mono (s : SchedulerSpec) {t1 t2 : ℕ} (h : t1 ≤ t2) :
    schedulerExponent s t1 ≤ schedulerExponent s t2 := by
  unfold schedulerExponent
  refine min_le_min ?_ le_rfl
  rcases Nat.eq_zero_or_pos s.max_steps with hz | hp
  · rw [hz]
    simp
  · have hp2 : (0 : ℚ) < (s.max_steps : ℚ) := by exact_mod_cast hp
    rw [div_le_div_iff_of_pos_right hp2]
    refine max_le_max ?_ le_rfl
    have : (t1 : ℚ) ≤ (t2 : ℚ) := by exact_mod_cast h
    linarith

lemma multiplier_of_le (s : SchedulerSpec) (t : ℕ) (h : t ≤ s.warm_up) :
    s.multiplier t = 1 := by
  unfold SchedulerSpec.multiplier
  rw [schedulerExponent_of_le s t h, Rat.cast_zero, Real.rpow_zero]

lemma multiplier_of_ge (s : SchedulerSpec) (t : ℕ) (hms : 0 < s.max_steps)
    (h : s.warm_up + s.max_steps ≤ t) : s.multiplier t = s.lr_final_factor := by
  unfold SchedulerSpec.multiplier
  rw [schedulerExponent_of_ge s t hms h, Rat.cast_one, Real.rpow_one]

lemma multiplier_antitone (s : SchedulerSpec) (hff0 : 0 < s.lr_final_factor)
    (hff1 : s.lr_final_factor ≤ 1) {t1 t2 : ℕ} (h : t1 ≤ t2) :
    s.multiplier t2 ≤ s.multiplier t1 := by
  unfold SchedulerSpec.multiplier
  refine Real.rpow_le_rpow_of_exponent_ge ?_ ?_ ?_
  · exact_mod_cast hff0
  · exact_mod_cast hff1
  · exact_mod_cast schedulerExponent_mono s h

/-- C3: for both scheduler specs built by training_setup, the learning-rate
multiplier at step t is final_factor ^ min(max(t - warm_up, 0)/max_steps, 1);
it is 1 for all t ≤ warm_up, equals final_factor at t = warm_up + max_steps
and for all later t, and is monotonically non-increasing for t ≥ warm_up
(the decay factor being a positive factor at most 1 and max_steps
positive). -/
theorem C3_lr_schedule (cfg : OptimizationConfig)
    (hff0 : 0 < cfg.lr_final_factor) (hff1 : cfg.lr_final_factor ≤ 1)
    (hms : 0 < cfg.max_steps) :
    ∀ s : SchedulerSpec, s = (trainingSetup cfg).1 ∨ s = (trainingSetup cfg).2 →
      (∀ t, s.multiplier t = (cfg.lr_final_factor : ℝ) ^
        ((min (max ((t : ℚ) - (cfg.warm_up : ℚ)) 0 / (cfg.max_steps : ℚ)) 1 : ℚ) : ℝ)) ∧
      (∀ t, t ≤ cfg.warm_up → s.multiplier t = 1) ∧
      (∀ t, cfg.warm_up + cfg.max_steps ≤ t → s.multiplier t = cfg.lr_final_factor) ∧
      (∀ t1 t2, cfg.warm_up ≤ t1 → t1 ≤ t2 → s.multiplier t2 ≤ s.multiplier t1) := by
  intro s hs
  have hf : s.lr_final_factor = cfg.lr_final_factor := by
    rcases hs with h | h <;> subst h <;> rfl
  have hm : s.max_steps = cfg.max_steps := by
    rcases hs with h | h <;> subst h <;> rfl
  have hw : s.warm_up = cfg.warm_up := by
    rcases hs with h | h <;> subst h <;> rfl
  refine ⟨?_, ?_, ?_, ?_⟩
  · intro t
    unfold SchedulerSpec.multiplier schedulerExponent
    rw [hf, hm, hw]
  · intro t ht
    exact multiplier_of_le s t (by rw [hw]; exact ht)
  · intro t ht
    rw [← hf]
    exact multiplier_of_ge s t (by rw [hm]; exact hms) (by rw [hw, hm]; exact ht)
  · intro t1 t2 _ h2
    exact multiplier_antitone s (by rw [hf]; exact hff0) (by rw [hf]; exact hff1) h2

lemma sigmoid_pos (x : ℝ) : 0 < sigmoid x := by
  unfold sigmoid
  have h : (0 : ℝ) < 1 + Real.exp (-x) := by positivity
  exact div_pos one_pos h

lemma sigmoid_lt_one (x : ℝ) : sigmoid x < 1 := by
  unfold sigmoid
  have h : (0 : ℝ) < 1 + Real.exp (-x) := by positivity
  rw [div_lt_one h]
  have h2 := Real.exp_pos (-x)
  linarith

/-- C4: for any model configuration, any embedding table and any offset
network built with three output rows (the builder is always called with
n_output_dims = 3 and output activation sigmoid), the appearance prediction
followed by the caller's 2x - 1 rescaling yields one row per input point,
each row of length 3 with every component in [-1, 1]. -/
theorem C4_offsets_shape_and_bounds (cfg : ModelConfig) (embedding : List (List ℝ))
    (net : MLP) (gaussianFeatures viewDirs : List (List ℝ)) (appearance : ℕ)
    (hout : net.output.rows.length = 3)
    (_hfeat : ∀ f ∈ gaussianFeatures, f.length = cfg.n_gaussian_feature_dims) :
    (appearanceOffsets cfg embedding net gaussianFeatures appearance viewDirs).length =
      gaussianFeatures.length ∧
    ∀ row ∈ appearanceOffsets cfg embedding net gaussianFeatures appearance viewDirs,
      row.length = 3 ∧ ∀ v ∈ row, -1 ≤ v ∧ v ≤ 1 := by
  constructor
  · unfold appearanceOffsets modelForward
    rw [List.length_map, List.length_map, List.length_range]
  · intro row hrow
    unfold appearanceOffsets at hrow
    rw [List.mem_map] at hrow
    obtain ⟨row0, hrow0, hrw⟩ := hrow
    unfold modelForward at hrow0
    rw [List.mem_map] at hrow0
    obtain ⟨i, _, hrow0eq⟩ := hrow0
    constructor
    · rw [← hrw, List.length_map, ← hrow0eq]
      unfold MLP.run AffineLayer.apply
      rw [List.length_map, List.length_map]
      exact hout
    · intro v hv
      rw [← hrw, List.mem_map] at hv
      obtain ⟨y, hy, hveq⟩ := hv
      rw [← hrow0eq] at hy
      unfold MLP.run at hy
      rw [List.mem_map] at hy
      obtain ⟨z, _, hyeq⟩ := hy
      have h0 := sigmoid_pos z
      have h1 := sigmoid_lt_one z
      rw [← hveq, ← hyeq]
      constructor <;> linarith

/-- Witness instantiating C1 at step 0 (below the default warm_up of 4000:
base-renderer delegation) and at step 4000 (appearance-conditioned
forward). -/
theorem C1_warm_up_dispatch_witness :
    trainingForward 0 {} true exProj exOp exBase exOffset exBg none =
      Sum.inl { proj := exProj, opacities := exOp, bg := exBg, renderTypes := none } ∧
    trainingForward 4000 {} true exProj exOp exBase exOffset exBg none =
      Sum.inr (rendererForward true exProj exOp exBase exOffset exBg none) :=
  ⟨((C1_warm_up_dispatch 0 {} true exProj exOp exBase exOffset exOffset2 exBg none).1
      (by decide)).1,
   (C1_warm_up_dispatch 4000 {} true exProj exOp exBase exOffset exOffset2 exBg none).2
      (by decide)⟩

/-- Witness instantiating C2 on the concrete rgb rasterization call. -/
theorem C2_rgb_colors_clamped_witness :
    (∀ (i : Fin 1) (j : Fin 3), 0 ≤ exRgbCall.colors i j ∧ exRgbCall.colors i j ≤ 1) ∧
    (∀ (i : Fin 1) (j : Fin 3), ¬ 0 < exProj.radii i → exRgbCall.colors i j = 0) ∧
    (∀ (i : Fin 1) (j : Fin 3), 0 < exProj.radii i →
      exRgbCall.colors i j = clamp01 (exBase i j + exOffset i j)) :=
  C2_rgb_colors_clamped true exProj exOp exBase exOffset exBg none exRgbCall rfl

/-- Witness instantiating C3 on the default OptimizationConfig: full
multiplier at step 0 for the embedding scheduler, decayed multiplier at
step warm_up + max_steps = 34000 for the network scheduler. -/
theorem C3_lr_schedule_witness :
    ((trainingSetup {}).1).multiplier 0 = 1 ∧
    ((trainingSetup {}).2).multiplier 34000 =
      (({} : OptimizationConfig).lr_final_factor : ℝ) :=
  ⟨((C3_lr_schedule {} (by norm_num [OptimizationConfig.lr_final_factor]) (by norm_num [OptimizationConfig.lr_final_factor]) (by decide) (trainingSetup {}).1
      (Or.inl rfl)).2.1) 0 (by decide),
   ((C3_lr_schedule {} (by norm_num [OptimizationConfig.lr_final_factor]) (by norm_num [OptimizationConfig.lr_final_factor]) (by decide) (trainingSetup {}).2
      (Or.inr rfl)).2.2.1) 34000 (by decide)⟩

/-- Witness instantiating C4 on a concrete one-point batch and a concrete
three-output network. -/
theorem C4_offsets_shape_and_bounds_witness :
    (appearanceOffsets {} [] exNet exFeats 0 []).length = exFeats.length ∧
    ∀ row ∈ appearanceOffsets {} [] exNet exFeats 0 [],
      row.length = 3 ∧ ∀ v ∈ row, -1 ≤ v ∧ v ≤ 1 :=
  C4_offsets_shape_and_bounds {} [] exNet exFeats [] 0 rfl (by simp [exFeats])

/-- Witness instantiating C5 on the three concrete rasterization calls of
a frame requesting all three channels with anti-aliasing enabled. -/
theorem C5_anti_aliasing_applied_once_witness :
    (exRgbCall.antiAliased = false ∧
      exRgbCall.opacities = fun i => exOp i * exProj.comp i) ∧
    (exInvCall.antiAliased = false ∧
      exInvCall.opacities = fun i => exOp i * exProj.comp i) ∧
    (exHardCall.antiAliased = false ∧
      exHardCall.opacities = fun i =>
        exOp i * exProj.comp i + (1 - detach (exOp i * exProj.comp i))) :=
  ⟨(C5_anti_aliasing_applied_once exProj exOp exBase exOffset exBg
      (some ["rgb", "inverse_depth", "hard_inverse_depth"])).1 exRgbCall rfl,
   (C5_anti_aliasing_applied_once exProj exOp exBase exOffset exBg
      (some ["rgb", "inverse_depth", "hard_inverse_depth"])).2.1 exInvCall rfl,
   (C5_anti_aliasing_applied_once exProj exOp exBase exOffset exBg
      (some ["rgb", "inverse_depth", "hard_inverse_depth"])).2.2 exHardCall rfl⟩

/-- Witness instantiating C6 on the two concrete depth rasterization
calls. -/
theorem C6_hard_inverse_depth_is_opacity_one_witness :
    (∀ i, exHardCall.opacities i = 1) ∧
    exHardCall.colors = exInvCall.colors ∧
    exHardCall = { exInvCall with opacities := fun _ => 1 } :=
  (C6_hard_inverse_depth_is_opacity_one true exProj exOp exBase exOffset exBg
    ["inverse_depth", "hard_inverse_depth"] (by decide) (by decide)).2.2
    exInvCall rfl exHardCall rfl

/-- Witness instantiating C7 on a fresh state (n_appearances = -1) with
observed appearance-group ids 3 and 1 (inferred count 4). -/
theorem C7_n_appearances_inferred_once_witness :
    (moduleSetup exState true (some [3, 1])).modelConfig.n_appearances =
      (maxInputId (some [3, 1]) : ℤ) + 1 ∧
    maxInputId (some [3, 1]) = ((some [3, 1] : Option (List ℕ)).getD []).foldl max 0 ∧
    1 ≤ (moduleSetup exState true (some [3, 1])).modelConfig.n_appearances ∧
    (moduleSetup exState true (some [3, 1])).model = some
      { embeddingRows := maxInputId (some [3, 1]) + 1
        embeddingDims := exState.modelConfig.n_appearance_embedding_dims } ∧
    (∀ g2, (moduleSetup (moduleSetup exState true (some [3, 1])) true
      g2).modelConfig.n_appearances = (maxInputId (some [3, 1]) : ℤ) + 1) :=
  C7_n_appearances_inferred_once exState (some [3, 1]) (by decide)

/-- Witness instantiating C9: prepending the unrecognized channel name
"depth" to the request list leaves the output unchanged. -/
theorem C9_unrecognized_render_types_ignored_witness :
    rendererForward true exProj exOp exBase exOffset exBg (some ["depth", "rgb"]) =
      rendererForward true exProj exOp exBase exOffset exBg (some ["rgb"]) :=
  (C9_unrecognized_render_types_ignored true exProj exOp exBase exOffset exBg
    ["rgb"]).2.2.2 "depth" (by decide) (by decide) (by decide)

end GSplatAE
